import Mathlib

/-!
Verification of the `deep_motion_planner` control node
(`deep_motion_planner/python/deep_motion_planner/deep_motion_planner.py`).

The development shallowly embeds:
* the scan decimation/cropping block of `processing_data` (lines 116-124),
* the scheduling block of `processing_data` (lines 96-101),
* `compute_relative_target` together with the quaternion helpers of
  `tf.transformations` that it calls,
* `check_goal_reached`,
* one iteration of the `processing_data` loop body as a pure step function.

Scalar values are modelled by the real numbers; Python integers by `Int`
(Python `//` is floor division, modelled by `Int.fdiv`).  Fallible calls
(transform lookup, inference) are modelled by `Except`; an uncaught Python
exception escaping the loop body is modelled by an `Except.error` result of
the step function.
-/

namespace DeepMotionPlanner

/-! ### Scan preprocessing (processing_data, lines 116-124) -/

/-- Python slicing `lst[::stride]`: keep the elements whose index is a
multiple of `stride`, preserving order. -/
def decimate {α : Type} (stride : ℕ) (l : List α) : List α :=
  (l.enum.filter (fun p => p.1 % stride = 0)).map Prod.snd

/-- Lines 117-124 of `processing_data`:
`cut_n_elements = (len(scans) - n_laser_scans) // 2` (Python floor division on
possibly negative integers, hence `Int.fdiv`); if positive, slice
`scans[cut_n_elements:-cut_n_elements]`; if the result still has
`n_laser_scans + 1` elements, drop the trailing one (`cropped_scans[0:-1]`). -/
def cropScans {α : Type} (n_laser_scans : ℕ) (scans : List α) : List α :=
  let cut_n_elements : ℤ := Int.fdiv ((scans.length : ℤ) - (n_laser_scans : ℤ)) 2
  let cropped_scans :=
    if 0 < cut_n_elements then
      (scans.drop cut_n_elements.toNat).take (scans.length - 2 * cut_n_elements.toNat)
    else scans
  if cropped_scans.length = n_laser_scans + 1 then
    cropped_scans.take (cropped_scans.length - 1)
  else cropped_scans

/-- Line 116 followed by lines 117-124: decimation then centered cropping.
This is the spec's `ScanPreprocessor.preprocess`. -/
def preprocess {α : Type} (stride n_laser_scans : ℕ) (ranges : List α) : List α :=
  cropScans n_laser_scans (decimate stride ranges)

/-- Transcription of the spec's description of the trimming step: with
`excess = len(decimated) - target_len`, remove `excess // 2` elements from each
end, and if the result has length `target_len + 1` drop one trailing element.
Written from the spec's words, to be compared with `cropScans`. -/
def specCenteredTrim {α : Type} (target_len : ℕ) (decimated : List α) : List α :=
  let k := (decimated.length - target_len) / 2
  let t := (decimated.drop k).take (decimated.length - 2 * k)
  if t.length = target_len + 1 then t.dropLast else t

/-- Whether an `Except` value is a success. -/
def exceptIsOk {ε α : Type} : Except ε α → Bool
  | .ok _ => true
  | .error _ => false

/-! ### Quaternion helpers from `tf.transformations`

The node calls `tf.transformations.quaternion_multiply`, `quaternion_inverse`
and `euler_from_quaternion` (default `sxyz` axes).  These are embedded from
the reference implementation of that library, with quaternions stored in
`[x, y, z, w]` order, over the real numbers. -/

structure Quat where
  x : ℝ
  y : ℝ
  z : ℝ
  w : ℝ

/-- `tf.transformations.quaternion_multiply(quaternion1, quaternion0)`. -/
def quaternion_multiply (q1 q0 : Quat) : Quat :=
  ⟨q1.x * q0.w + q1.y * q0.z - q1.z * q0.y + q1.w * q0.x,
   -q1.x * q0.z + q1.y * q0.w + q1.z * q0.x + q1.w * q0.y,
   q1.x * q0.y - q1.y * q0.x + q1.z * q0.w + q1.w * q0.z,
   -q1.x * q0.x - q1.y * q0.y - q1.z * q0.z + q1.w * q0.w⟩

/-- `tf.transformations.quaternion_inverse`: the conjugate divided by the
squared norm. -/
noncomputable def quaternion_inverse (q : Quat) : Quat :=
  let n := q.x * q.x + q.y * q.y + q.z * q.z + q.w * q.w
  ⟨-q.x / n, -q.y / n, -q.z / n, q.w / n⟩

/-- `tf.transformations._EPS = numpy.finfo(float64).eps * 4.0 = 2 ** (-50)`. -/
noncomputable def EPS : ℝ := 4 / 2 ^ 52

/-- Two-argument arctangent, the idealisation of `math.atan2(y, x)`. -/
noncomputable def atan2 (y x : ℝ) : ℝ :=
  if 0 < x then Real.arctan (y / x)
  else if x < 0 then
    if 0 ≤ y then Real.arctan (y / x) + Real.pi else Real.arctan (y / x) - Real.pi
  else
    if 0 < y then Real.pi / 2 else if y < 0 then -(Real.pi / 2) else 0

/-- The rotation part (upper-left 3x3 block) of a homogeneous matrix. -/
structure Mat3 where
  m00 : ℝ
  m01 : ℝ
  m02 : ℝ
  m10 : ℝ
  m11 : ℝ
  m12 : ℝ
  m20 : ℝ
  m21 : ℝ
  m22 : ℝ

/-- `tf.transformations.quaternion_matrix`, restricted to the rotation block.
The source scales `q` by `sqrt(2/nq)` and takes the outer product, so each
entry is a product of two scaled components: the square root squares away and
every entry is `q_i * q_j * (2 / nq)`. -/
noncomputable def quaternion_matrix (q : Quat) : Mat3 :=
  let nq := q.x * q.x + q.y * q.y + q.z * q.z + q.w * q.w
  if nq < EPS then ⟨1, 0, 0, 0, 1, 0, 0, 0, 1⟩
  else
    let s := 2 / nq
    ⟨1 - (q.y * q.y + q.z * q.z) * s, (q.x * q.y - q.z * q.w) * s, (q.x * q.z + q.y * q.w) * s,
     (q.x * q.y + q.z * q.w) * s, 1 - (q.x * q.x + q.z * q.z) * s, (q.y * q.z - q.x * q.w) * s,
     (q.x * q.z - q.y * q.w) * s, (q.y * q.z + q.x * q.w) * s, 1 - (q.x * q.x + q.y * q.y) * s⟩

/-- `tf.transformations.euler_from_matrix` with the default static `xyz`
axes (`firstaxis i = 0`, `j = 1`, `k = 2`, no repetition, no parity). -/
noncomputable def euler_from_matrix_sxyz (M : Mat3) : ℝ × ℝ × ℝ :=
  let cy := Real.sqrt (M.m00 * M.m00 + M.m10 * M.m10)
  if EPS < cy then
    (atan2 M.m21 M.m22, atan2 (-M.m20) cy, atan2 M.m10 M.m00)
  else
    (atan2 (-M.m12) M.m11, atan2 (-M.m20) cy, 0)

/-- `tf.transformations.euler_from_quaternion` with the default axes. -/
noncomputable def euler_from_quaternion (q : Quat) : ℝ × ℝ × ℝ :=
  euler_from_matrix_sxyz (quaternion_matrix q)

/-! ### Data model -/

/-- The fields of `target_pose.target_pose.pose` that the node reads: the
planar goal position and the goal orientation quaternion. -/
structure GoalPose where
  gx : ℝ
  gy : ℝ
  ori : Quat

/-- The pose content of a `MoveBaseFeedback` message (`base_position.pose`). -/
structure Feedback where
  px : ℝ
  py : ℝ
  pz : ℝ
  ori : Quat

/-- The three exception types caught at lines 158-159:
`tf.LookupException`, `tf.ConnectivityException`, `tf.ExtrapolationException`. -/
inductive TransformError where
  | lookupException
  | connectivityException
  | extrapolationException

/-- The two fields of the published `Twist` command that the node sets. -/
structure Twist where
  linear_x : ℝ
  angular_z : ℝ

/-- The `actionlib` goal states relevant to the node (spec §4.3 `GoalState`). -/
inductive GoalState where
  | idle
  | active
  | preempted
  | succeeded
deriving DecidableEq

/-- `SimpleActionServer.is_active()`: true exactly in the `Active` state. -/
def GoalState.isActive : GoalState → Bool
  | .active => true
  | _ => false

/-- Modelled from the spec: `actionlib.SimpleActionServer.set_succeeded` is
external to this repository; §4.3 specifies that succeeding transitions an
`Active` goal to `Succeeded` and is legal only from `Active`. -/
def set_succeeded : GoalState → GoalState
  | .active => .succeeded
  | s => s

/-! ### compute_relative_target (lines 150-197) -/

/-- `compute_relative_target`.  The transform lookup outcome is passed in as
an `Except` value; the `except` clause at lines 158-160 maps any of the three
`tf` exceptions to `None`.  The second component of the result collects the
feedback messages passed to `publish_feedback` (line 172). -/
noncomputable def compute_relative_target
    (lookup : Except TransformError ((ℝ × ℝ × ℝ) × Quat))
    (target_pose : GoalPose) : Option (ℝ × ℝ × ℝ) × List Feedback :=
  match lookup with
  | .error _ => (none, [])
  | .ok (base_position, base_orientation) =>
    let feedback : Feedback :=
      ⟨base_position.1, base_position.2.1, base_position.2.2, base_orientation⟩
    let goal_position_difference :=
      (target_pose.gx - feedback.px, target_pose.gy - feedback.py)
    let p := feedback.ori
    let q := target_pose.ori
    let goal_position_base_frame :=
      quaternion_multiply (quaternion_inverse p)
        (quaternion_multiply ⟨goal_position_difference.1, goal_position_difference.2, 0, 0⟩ p)
    let orientation_to_target := quaternion_multiply q (quaternion_inverse p)
    let yaw := (euler_from_quaternion orientation_to_target).2.2
    (some (goal_position_base_frame.x, -goal_position_base_frame.y, yaw), [feedback])

/-! ### Spec-side formulation of the relative-target algorithm (spec §4.2) -/

/-- Hamilton product `a ⊗ b` of quaternions stored as `[x, y, z, w]`,
written from the standard component formulas. -/
def hamilton_mul (a b : Quat) : Quat :=
  ⟨a.w * b.x + a.x * b.w + a.y * b.z - a.z * b.y,
   a.w * b.y - a.x * b.z + a.y * b.w + a.z * b.x,
   a.w * b.z + a.x * b.y - a.y * b.x + a.z * b.w,
   a.w * b.w - a.x * b.x - a.y * b.y - a.z * b.z⟩

/-- Quaternion inverse `a⁻¹`: the conjugate divided by the squared norm. -/
noncomputable def hamilton_inverse (a : Quat) : Quat :=
  let n := a.x * a.x + a.y * a.y + a.z * a.z + a.w * a.w
  ⟨-a.x / n, -a.y / n, -a.z / n, a.w / n⟩

/-- The spec's description of the relative-target value (§4.2): planar
difference, conjugate sandwich `p⁻¹ ⊗ (dx, dy, 0, 0) ⊗ p`, orientation error
`q ⊗ p⁻¹` with yaw extracted as the z-axis Euler angle, and the sign flip on
the lateral axis. -/
noncomputable def specRelativeTarget (r : ℝ × ℝ) (p : Quat) (g : ℝ × ℝ) (q : Quat) :
    ℝ × ℝ × ℝ :=
  let v : Quat := ⟨g.1 - r.1, g.2 - r.2, 0, 0⟩
  let rotated := hamilton_mul (hamilton_inverse p) (hamilton_mul v p)
  (rotated.x, -rotated.y,
    (euler_from_quaternion (hamilton_mul q (hamilton_inverse p))).2.2)

/-! ### check_goal_reached (lines 138-148) -/

noncomputable def position_tolerance : ℝ := 0.1

noncomputable def orientation_tolerance : ℝ := 0.1

/-- `check_goal_reached`: calls `set_succeeded` exactly when all three
components of the relative target are strictly within the tolerances. -/
noncomputable def check_goal_reached (target : ℝ × ℝ × ℝ) (st : GoalState) : GoalState :=
  if |target.1| < position_tolerance ∧ |target.2.1| < position_tolerance ∧
      |target.2.2| < orientation_tolerance then
    set_succeeded st
  else st

/-! ### The processing loop (processing_data, lines 91-136) -/

/-- Outcome of the scheduling block: the new deadline, whether the
missed-deadline error was logged, and the time at which the body starts. -/
structure SchedResult where
  next_call : ℝ
  missed : Bool
  wake : ℝ

/-- Lines 96-101: advance `next_call` by the period, then either sleep until
the deadline or log a missed-deadline error and continue immediately.
`wake` is the time at which the body starts running. -/
noncomputable def schedule_step (freq next_call now : ℝ) : SchedResult :=
  let nc := next_call + 1 / freq
  let sleep_time := nc - now
  if 0 < sleep_time then ⟨nc, false, now + sleep_time⟩ else ⟨nc, true, now⟩

/-- The deadline accumulator over `n` loop iterations, with an arbitrary
sequence `nows` of wall-clock readings. -/
noncomputable def loopSched (freq init : ℝ) (nows : ℕ → ℝ) : ℕ → ℝ
  | 0 => init
  | n + 1 => (schedule_step freq (loopSched freq init nows n) (nows n)).next_call

/-- The external inputs one loop iteration reads: the shared subscriber slots,
the transform lookup outcome, the inference engine, and the configuration. -/
structure Env where
  target_pose : Option GoalPose
  last_scan : Option (List ℝ)
  lookupTransform : Except TransformError ((ℝ × ℝ × ℝ) × Quat)
  inference : List ℝ → Except Unit (ℝ × ℝ)
  laser_scan_stride : ℕ
  n_laser_scans : ℕ
  freq : ℝ

/-- Everything one loop iteration does: the updated deadline, whether the
missed-deadline error was logged, the wake time, the published commands, the
published feedback, the target passed to `check_goal_reached` (if any), and
the resulting goal state. -/
structure TickResult where
  next_call : ℝ
  missed : Bool
  wake : ℝ
  published : List Twist
  feedback : List Feedback
  checked : Option (ℝ × ℝ × ℝ)
  goal : GoalState

/-- One iteration of the `processing_data` loop body (lines 96-136).  A
`continue` produces an `.ok` result with no published command; an exception
raised by `tf_wrapper.inference` is not caught anywhere in the body, so it
escapes as `.error`, terminating the loop. -/
noncomputable def processTick (env : Env) (now next_call : ℝ) (st : GoalState) :
    Except Unit TickResult :=
  let sched := schedule_step env.freq next_call now
  if st.isActive = false then
    .ok ⟨sched.next_call, sched.missed, sched.wake, [], [], none, st⟩
  else
    match env.target_pose, env.last_scan with
    | some goal, some ranges =>
      match compute_relative_target env.lookupTransform goal with
      | (none, fbs) => .ok ⟨sched.next_call, sched.missed, sched.wake, [], fbs, none, st⟩
      | (some target, fbs) =>
        let cropped_scans := preprocess env.laser_scan_stride env.n_laser_scans ranges
        let input_data := cropped_scans ++ [target.1, target.2.1, target.2.2]
        match env.inference input_data with
        | .error e => .error e
        | .ok (linear_x, angular_z) =>
          .ok ⟨sched.next_call, sched.missed, sched.wake, [⟨linear_x, angular_z⟩], fbs,
               some target, check_goal_reached target st⟩
    | _, _ => .ok ⟨sched.next_call, sched.missed, sched.wake, [], [], none, st⟩

/-! ### Concrete inputs used to exercise the model -/

/-- The identity orientation quaternion. -/
def idQuat : Quat := ⟨0, 0, 0, 1⟩

/-- A goal at position `(3, 4)` with yaw `0`. -/
def goal34 : GoalPose := ⟨3, 4, idQuat⟩

/-- A successful transform lookup placing the robot at the origin with the
identity orientation. -/
def okOrigin : Except TransformError ((ℝ × ℝ × ℝ) × Quat) := .ok ((0, 0, 0), idQuat)

/-- A raw scan with six samples; decimation by `2` keeps three of them,
far fewer than the configured `540`. -/
def shortRanges : List ℝ := [1, 2, 3, 4, 5, 6]

/-- A loop environment with the goal `goal34`, the short scan, a successful
transform lookup at the origin, the default configuration
(`stride = 2`, `n_laser_scans = 540`, `freq = 25`), and an inference engine
that reports the length of its input vector as the linear command. -/
def env0 : Env :=
  ⟨some goal34, some shortRanges, okOrigin, fun v => .ok ((v.length : ℝ), 0), 2, 540, 25⟩

/-- `env0` with an inference engine that always raises. -/
def envBad : Env := { env0 with inference := fun _ => .error () }

/-- `env0` with an inference engine returning the fixed command `(1, 2)`. -/
def env1 : Env := { env0 with inference := fun _ => .ok (1, 2) }

/-! ### Lemmas about the scan preprocessing -/

/-- When the decimated sequence already has fewer than `n_laser_scans`
elements, the cropping block leaves it unchanged: `cut_n_elements` is
negative or zero, so no slicing happens, and the length test
`len == n_laser_scans + 1` fails. -/
lemma cropScans_short {α : Type} (n_laser_scans : ℕ) (scans : List α)
    (h : scans.length < n_laser_scans) : cropScans n_laser_scans scans = scans := by
  unfold cropScans
  simp only []
  have hfd : Int.fdiv ((scans.length : ℤ) - (n_laser_scans : ℤ)) 2 =
      ((scans.length : ℤ) - (n_laser_scans : ℤ)) / 2 :=
    Int.fdiv_eq_ediv _ (by norm_num)
  have hneg : ¬ (0 < Int.fdiv ((scans.length : ℤ) - (n_laser_scans : ℤ)) 2) := by
    rw [hfd]
    omega
  rw [if_neg hneg, if_neg (by omega)]

/-- When the decimated sequence has at least `n_laser_scans` elements, the
cropping block agrees with the spec's centered-trim description and always
returns exactly `n_laser_scans` elements; with exactly one excess element it
returns the first `n_laser_scans` elements. -/
lemma cropScans_long {α : Type} (n_laser_scans : ℕ) (scans : List α)
    (h : n_laser_scans ≤ scans.length) :
    (cropScans n_laser_scans scans).length = n_laser_scans ∧
    cropScans n_laser_scans scans = specCenteredTrim n_laser_scans scans ∧
    (scans.length = n_laser_scans + 1 →
      cropScans n_laser_scans scans = scans.take n_laser_scans) := by
  obtain ⟨e, he⟩ : ∃ e, scans.length = n_laser_scans + e := ⟨scans.length - n_laser_scans, by omega⟩
  have htoNat : (Int.fdiv ((scans.length : ℤ) - (n_laser_scans : ℤ)) 2).toNat = e / 2 := by
    rw [Int.fdiv_eq_ediv _ (by norm_num)]
    omega
  have hfd : Int.fdiv ((scans.length : ℤ) - (n_laser_scans : ℤ)) 2 = ((e : ℤ)) / 2 := by
    rw [Int.fdiv_eq_ediv _ (by norm_num)]
    omega
  have hkk : (scans.length - n_laser_scans) / 2 = e / 2 := by omega
  unfold cropScans specCenteredTrim
  simp only []
  rw [htoNat, hfd, hkk]
  by_cases hz : (0 : ℤ) < (e : ℤ) / 2
  · -- at least two excess elements: the slice really trims
    rw [if_pos hz]
    have hz' : 2 ≤ e := by omega
    have hlen1 : ((scans.drop (e / 2)).take (scans.length - 2 * (e / 2))).length
        = n_laser_scans + e % 2 := by
      simp only [List.length_take, List.length_drop]
      omega
    by_cases hodd : e % 2 = 1
    · have hcond : ((scans.drop (e / 2)).take (scans.length - 2 * (e / 2))).length
          = n_laser_scans + 1 := by rw [hlen1, hodd]
      rw [if_pos hcond, if_pos hcond]
      refine ⟨?_, ?_, ?_⟩
      · simp only [List.length_take, List.length_drop]
        omega
      · rw [List.dropLast_eq_take]
      · intro habs
        omega
    · have hcond : ¬ ((scans.drop (e / 2)).take (scans.length - 2 * (e / 2))).length
          = n_laser_scans + 1 := by rw [hlen1]; omega
      rw [if_neg hcond, if_neg hcond]
      refine ⟨?_, rfl, ?_⟩
      · rw [hlen1]
        omega
      · intro habs
        omega
  · -- zero or one excess element: no slicing
    rw [if_neg hz]
    have hk0 : e / 2 = 0 := by omega
    rw [hk0]
    simp only [List.drop_zero, Nat.mul_zero, Nat.sub_zero, List.take_length]
    by_cases h1 : scans.length = n_laser_scans + 1
    · rw [if_pos h1, if_pos h1]
      refine ⟨?_, ?_, ?_⟩
      · simp only [List.length_take]
        omega
      · rw [List.dropLast_eq_take]
      · intro _
        rw [h1, Nat.add_sub_cancel]
    · rw [if_neg h1, if_neg h1]
      exact ⟨by omega, rfl, fun habs => absurd habs h1⟩

/-- Decimating the six-sample scan by `2` keeps the three even-indexed
samples. -/
lemma decimate_shortRanges : decimate 2 shortRanges = [(1 : ℝ), 3, 5] := by
  unfold decimate shortRanges
  simp [List.enum, List.enumFrom]

/-- The three decimated samples are far fewer than `540`, and the cropping
block passes them through unchanged. -/
lemma preprocess_shortRanges : preprocess 2 540 shortRanges = [(1 : ℝ), 3, 5] := by
  unfold preprocess
  rw [decimate_shortRanges]
  exact cropScans_short 540 _ (by simp)

/-! ### Lemmas about the geometry -/

/-- The `tf` component formulas for `quaternion_multiply(q1, q0)` compute the
Hamilton product `q1 ⊗ q0`. -/
lemma quaternion_multiply_eq_hamilton (a b : Quat) :
    quaternion_multiply a b = hamilton_mul a b := by
  simp only [quaternion_multiply, hamilton_mul, Quat.mk.injEq]
  refine ⟨by ring, by ring, by ring, by ring⟩

/-- `tf.transformations.quaternion_inverse` computes the quaternion inverse
(conjugate over squared norm). -/
lemma quaternion_inverse_eq_hamilton (a : Quat) :
    quaternion_inverse a = hamilton_inverse a := rfl

/-- Value of `compute_relative_target` for a robot at the origin with the
identity orientation and the goal `(3, 4, yaw 0)`: the lateral sign flip at
line 197 turns the rotated `y`-difference `4` into `-4`. -/
lemma compute_at_origin :
    compute_relative_target okOrigin goal34 =
      (some ((3 : ℝ), -4, 0), [⟨0, 0, 0, idQuat⟩]) := by
  unfold compute_relative_target okOrigin goal34
  simp only []
  norm_num [quaternion_multiply, quaternion_inverse, idQuat, euler_from_quaternion,
    quaternion_matrix, euler_from_matrix_sxyz, atan2, EPS, Real.sqrt_one]

/-! ### Lemmas about the scheduling block -/

/-- Both branches of the scheduling block advance the deadline by exactly one
period. -/
lemma schedule_step_next_call (freq nc now : ℝ) :
    (schedule_step freq nc now).next_call = nc + 1 / freq := by
  unfold schedule_step
  simp only []
  split <;> rfl

/-- Full case analysis of the scheduling block: either the deadline is still
ahead and the loop sleeps until it, or the deadline has been reached or passed
and the missed-frequency error is logged while the body runs immediately. -/
lemma schedule_step_cases (freq nc now : ℝ) :
    (¬ nc + 1 / freq ≤ now ∧
      schedule_step freq nc now = ⟨nc + 1 / freq, false, nc + 1 / freq⟩) ∨
    (nc + 1 / freq ≤ now ∧ schedule_step freq nc now = ⟨nc + 1 / freq, true, now⟩) := by
  unfold schedule_step
  simp only []
  split
  next h =>
    left
    refine ⟨by linarith, ?_⟩
    have harith : now + (nc + 1 / freq - now) = nc + 1 / freq := by ring
    rw [harith]
  next h =>
    right
    exact ⟨by linarith, rfl⟩

/-! ### Lemmas about one loop iteration -/

/-- With no active goal the body is skipped: nothing is published, no feedback
is sent, the goal state is untouched, but the deadline was still advanced. -/
lemma processTick_skip_inactive (env : Env) (now nc : ℝ) (st : GoalState)
    (h : st.isActive = false) :
    processTick env now nc st =
      .ok ⟨(schedule_step env.freq nc now).next_call, (schedule_step env.freq nc now).missed,
           (schedule_step env.freq nc now).wake, [], [], none, st⟩ := by
  unfold processTick
  simp only []
  rw [if_pos h]

/-- With no goal message or no scan received yet, the body is skipped. -/
lemma processTick_skip_no_data (env : Env) (now nc : ℝ) (st : GoalState)
    (h : st.isActive = true)
    (hp : env.target_pose = none ∨ env.last_scan = none) :
    processTick env now nc st =
      .ok ⟨(schedule_step env.freq nc now).next_call, (schedule_step env.freq nc now).missed,
           (schedule_step env.freq nc now).wake, [], [], none, st⟩ := by
  unfold processTick
  simp only []
  rw [if_neg (by rw [h]; simp)]
  rcases hp with hp | hp
  · cases hs : env.last_scan <;> rw [hp]
  · cases hq : env.target_pose <;> rw [hp]

/-- When the transform lookup fails, the target is absent and the body is
skipped after the (empty) feedback stage. -/
lemma processTick_skip_no_target (env : Env) (now nc : ℝ) (st : GoalState)
    (g : GoalPose) (ranges : List ℝ) (fbs : List Feedback)
    (h : st.isActive = true)
    (hp : env.target_pose = some g) (hs : env.last_scan = some ranges)
    (hc : compute_relative_target env.lookupTransform g = (none, fbs)) :
    processTick env now nc st =
      .ok ⟨(schedule_step env.freq nc now).next_call, (schedule_step env.freq nc now).missed,
           (schedule_step env.freq nc now).wake, [], fbs, none, st⟩ := by
  unfold processTick
  simp only []
  rw [if_neg (by rw [h]; simp), hp, hs]
  simp only [hc]

/-- When everything is available and inference succeeds, exactly one command
is published and `check_goal_reached` is invoked with the same target that
was appended to the input vector. -/
lemma processTick_publish (env : Env) (now nc : ℝ) (st : GoalState)
    (g : GoalPose) (ranges : List ℝ) (t : ℝ × ℝ × ℝ) (fbs : List Feedback) (lx az : ℝ)
    (h : st.isActive = true)
    (hp : env.target_pose = some g) (hs : env.last_scan = some ranges)
    (hc : compute_relative_target env.lookupTransform g = (some t, fbs))
    (hi : env.inference (preprocess env.laser_scan_stride env.n_laser_scans ranges
        ++ [t.1, t.2.1, t.2.2]) = .ok (lx, az)) :
    processTick env now nc st =
      .ok ⟨(schedule_step env.freq nc now).next_call, (schedule_step env.freq nc now).missed,
           (schedule_step env.freq nc now).wake, [⟨lx, az⟩], fbs, some t,
           check_goal_reached t st⟩ := by
  unfold processTick
  simp only []
  rw [if_neg (by rw [h]; simp), hp, hs]
  simp only [hc, hi]

/-- When inference raises, the exception escapes the body. -/
lemma processTick_inference_error (env : Env) (now nc : ℝ) (st : GoalState)
    (g : GoalPose) (ranges : List ℝ) (t : ℝ × ℝ × ℝ) (fbs : List Feedback) (e : Unit)
    (h : st.isActive = true)
    (hp : env.target_pose = some g) (hs : env.last_scan = some ranges)
    (hc : compute_relative_target env.lookupTransform g = (some t, fbs))
    (hi : env.inference (preprocess env.laser_scan_stride env.n_laser_scans ranges
        ++ [t.1, t.2.1, t.2.2]) = .error e) :
    processTick env now nc st = .error e := by
  unfold processTick
  simp only []
  rw [if_neg (by rw [h]; simp), hp, hs]
  simp only [hc, hi]

/-- Apart from the `missed` flag and the wake time, one loop iteration does
not depend on the wall-clock reading: a missed deadline changes nothing else
and in particular does not terminate the loop. -/
lemma processTick_now_independent (env : Env) (now now2 nc : ℝ) (st : GoalState) :
    Except.map (fun r => { r with missed := false, wake := 0 }) (processTick env now nc st) =
    Except.map (fun r => { r with missed := false, wake := 0 }) (processTick env now2 nc st) := by
  unfold processTick
  simp only []
  by_cases h : st.isActive = false
  · rw [if_pos h, if_pos h]
    simp [Except.map, schedule_step_next_call]
  · rw [if_neg h, if_neg h]
    cases hp : env.target_pose with
    | none => cases hs : env.last_scan <;> simp [Except.map, schedule_step_next_call]
    | some g =>
      cases hs : env.last_scan with
      | none => simp [Except.map, schedule_step_next_call]
      | some ranges =>
        rcases hc : compute_relative_target env.lookupTransform g with ⟨o, fbs⟩
        cases o with
        | none => simp [hc, Except.map, schedule_step_next_call]
        | some t =>
          cases hi : env.inference (preprocess env.laser_scan_stride env.n_laser_scans ranges
              ++ [t.1, t.2.1, t.2.2]) with
          | error e => simp [hc, hi, Except.map]
          | ok pair => simp [hc, hi, Except.map, schedule_step_next_call]

/-! ## Claims -/

/-- C1 (counterexample): with the default configuration and a raw scan whose
decimation has only `3 < 540` samples, preprocessing does not fail and the
tick body is not skipped: the 3-element scan vector plus the 3 target
components — a 6-element input vector, far shorter than `540` — is passed to
inference (which here reports its input length, `6`, as the linear command)
and a command is published, contradicting the claimed `InsufficientSamples`
failure, the claimed skip, and the claim that no vector shorter than
`target_len` is passed onward. -/
theorem scanPrep_insufficient_counterexample :
    (preprocess 2 540 shortRanges).length = 3 ∧ (3 : ℕ) < 540 ∧
    Except.map TickResult.published (processTick env0 0 0 GoalState.active) =
      .ok [⟨6, 0⟩] := by
  refine ⟨by rw [preprocess_shortRanges]; rfl, by norm_num, ?_⟩
  have hi : env0.inference (preprocess env0.laser_scan_stride env0.n_laser_scans shortRanges
      ++ [((3 : ℝ), -4, 0).1, ((3 : ℝ), -4, 0).2.1, ((3 : ℝ), -4, 0).2.2])
      = .ok (6, 0) := by
    show Except.ok (((preprocess 2 540 shortRanges ++ [(3 : ℝ), -4, 0]).length : ℝ), 0)
      = .ok (6, 0)
    rw [preprocess_shortRanges]
    norm_num
  rw [processTick_publish env0 0 0 GoalState.active goal34 shortRanges ((3 : ℝ), -4, 0)
    [⟨0, 0, 0, idQuat⟩] 6 0 rfl rfl rfl compute_at_origin hi]
  rfl

/-- C1 (amended): scan preprocessing never fails.  When the decimated
sequence has fewer than `target_len` elements it is passed onward unchanged
(shorter than `target_len`), the control loop does not skip the tick, and —
when inference succeeds — a command is still published. -/
theorem scanPrep_short_passthrough :
    (∀ (stride n_scans : ℕ) (ranges : List ℝ),
        (decimate stride ranges).length < n_scans →
        preprocess stride n_scans ranges = decimate stride ranges) ∧
    (∀ (env : Env) (now nc : ℝ) (st : GoalState) (g : GoalPose) (ranges : List ℝ)
        (t : ℝ × ℝ × ℝ) (fbs : List Feedback) (lx az : ℝ),
        st.isActive = true → env.target_pose = some g → env.last_scan = some ranges →
        (decimate env.laser_scan_stride ranges).length < env.n_laser_scans →
        compute_relative_target env.lookupTransform g = (some t, fbs) →
        env.inference (decimate env.laser_scan_stride ranges ++ [t.1, t.2.1, t.2.2])
          = .ok (lx, az) →
        processTick env now nc st =
          .ok ⟨(schedule_step env.freq nc now).next_call, (schedule_step env.freq nc now).missed,
               (schedule_step env.freq nc now).wake, [⟨lx, az⟩], fbs, some t,
               check_goal_reached t st⟩) := by
  constructor
  · intro stride n_scans ranges h
    exact cropScans_short n_scans _ h
  · intro env now nc st g ranges t fbs lx az h hp hs hshort hc hi
    refine processTick_publish env now nc st g ranges t fbs lx az h hp hs hc ?_
    have hpre : preprocess env.laser_scan_stride env.n_laser_scans ranges
        = decimate env.laser_scan_stride ranges := cropScans_short _ _ hshort
    rw [hpre]
    exact hi

/-- C1 (witness): the amendment at the concrete short scan. -/
theorem scanPrep_short_passthrough_witness :
    preprocess 2 540 shortRanges = decimate 2 shortRanges ∧
    processTick env0 0 0 GoalState.active =
      .ok ⟨(schedule_step 25 0 0).next_call, (schedule_step 25 0 0).missed,
           (schedule_step 25 0 0).wake, [⟨6, 0⟩], [⟨0, 0, 0, idQuat⟩],
           some ((3 : ℝ), -4, 0), check_goal_reached ((3 : ℝ), -4, 0) GoalState.active⟩ := by
  have hshort : (decimate 2 shortRanges).length < 540 := by
    rw [decimate_shortRanges]
    norm_num
  refine ⟨scanPrep_short_passthrough.1 2 540 shortRanges hshort, ?_⟩
  refine scanPrep_short_passthrough.2 env0 0 0 GoalState.active goal34 shortRanges
    ((3 : ℝ), -4, 0) [⟨0, 0, 0, idQuat⟩] 6 0 rfl rfl rfl hshort compute_at_origin ?_
  show Except.ok (((decimate 2 shortRanges ++ [(3 : ℝ), -4, 0]).length : ℝ), 0) = .ok (6, 0)
  rw [decimate_shortRanges]
  norm_num

/-- C2: for every raw sample sequence whose decimation has at least
`target_len` elements, preprocessing returns exactly `target_len` elements,
obtained by removing `(d - target_len) // 2` elements from each end of the
decimated sequence and, when the centered trim still has `target_len + 1`
elements (odd excess), dropping one trailing element; decimated length
`target_len + 1` yields the first `target_len` decimated elements. -/
theorem preprocess_centered_trim {α : Type} (stride target_len : ℕ) (ranges : List α)
    (h : target_len ≤ (decimate stride ranges).length) :
    (preprocess stride target_len ranges).length = target_len ∧
    preprocess stride target_len ranges = specCenteredTrim target_len (decimate stride ranges) ∧
    ((decimate stride ranges).length = target_len + 1 →
      preprocess stride target_len ranges = (decimate stride ranges).take target_len) :=
  cropScans_long target_len (decimate stride ranges) h

/-- C2 (witness): a nine-sample ramp decimates to five samples; with
`target_len = 4` the odd-excess path keeps the first four decimated samples. -/
theorem preprocess_centered_trim_witness :
    4 ≤ ((decimate 2 [0, 1, 2, 3, 4, 5, 6, 7, 8] : List ℕ)).length ∧
    (preprocess 2 4 ([0, 1, 2, 3, 4, 5, 6, 7, 8] : List ℕ)).length = 4 ∧
    preprocess 2 4 ([0, 1, 2, 3, 4, 5, 6, 7, 8] : List ℕ)
      = (decimate 2 ([0, 1, 2, 3, 4, 5, 6, 7, 8] : List ℕ)).take 4 :=
  ⟨by decide, (preprocess_centered_trim 2 4 _ (by decide)).1,
   (preprocess_centered_trim 2 4 _ (by decide)).2.2 (by decide)⟩

/-- C3 (counterexample): with the robot at the origin with identity
orientation and the goal at `(3, 4)` with yaw `0`, the computation returns
`(3, -4, 0)`, not the claimed `(3, 4, 0)`: the second component differs from
`4` by `8`, far beyond the `1e-9` tolerance. -/
theorem relativeTarget_origin_counterexample :
    (compute_relative_target okOrigin goal34).1 = some ((3 : ℝ), -4, 0) ∧
    ¬ |(-4 : ℝ) - 4| ≤ 1 / 1000000000 := by
  refine ⟨by rw [compute_at_origin], by norm_num⟩

/-- C3 (amended): with the robot at origin/identity and the goal at
`(3, 4, yaw 0)`, the relative-target computation returns exactly
`(3, -4, 0)` — the lateral sign flip of line 197 negates the `y` component. -/
theorem relativeTarget_origin :
    compute_relative_target okOrigin goal34 =
      (some ((3 : ℝ), -4, 0), [⟨0, 0, 0, idQuat⟩]) :=
  compute_at_origin

/-- C4: for every robot pose and goal pose, when the transform lookup
succeeds, the computed relative target is `(rotated_x, -rotated_y, yaw)`
where `(rotated_x, rotated_y)` are the first two components of the Hamilton
sandwich `p⁻¹ ⊗ (gx - rx, gy - ry, 0, 0) ⊗ p` and `yaw` is the z-axis Euler
angle of `q ⊗ p⁻¹`. -/
theorem compute_relative_target_follows_spec (bp : ℝ × ℝ × ℝ) (bo : Quat) (g : GoalPose) :
    (compute_relative_target (.ok (bp, bo)) g).1 =
      some (specRelativeTarget (bp.1, bp.2.1) bo (g.gx, g.gy) g.ori) := by
  unfold compute_relative_target specRelativeTarget
  simp only [quaternion_multiply_eq_hamilton, quaternion_inverse_eq_hamilton]

/-- C5 (counterexample): when the inference call raises, the exception is not
caught anywhere in the tick body: the iteration ends in an error (killing the
processing thread) rather than degrading to "no command published this
tick". -/
theorem inference_exception_escapes :
    processTick envBad 0 0 GoalState.active = .error () :=
  processTick_inference_error envBad 0 0 GoalState.active goal34 shortRanges
    ((3 : ℝ), -4, 0) [⟨0, 0, 0, idQuat⟩] () rfl rfl rfl compute_at_origin rfl

/-- C5 (amended): missing goal, missing scan and transform failures all
degrade to a tick with no published command while the loop continues, and the
only way a tick can end in an exception is the inference call raising — but
such an inference exception does propagate out of the tick body and
terminates the loop. -/
theorem tick_error_only_from_inference :
    (∀ (env : Env) (now nc : ℝ) (st : GoalState),
        (∀ v, exceptIsOk (env.inference v) = true) →
        exceptIsOk (processTick env now nc st) = true) ∧
    (∀ (env : Env) (now nc : ℝ) (st : GoalState) (e : Unit),
        processTick env now nc st = .error e →
        ∃ v, env.inference v = .error e) := by
  constructor
  · intro env now nc st h
    by_cases hA : st.isActive = false
    · rw [processTick_skip_inactive env now nc st hA]
      rfl
    · have hA2 : st.isActive = true := by revert hA; cases st.isActive <;> simp
      cases hp : env.target_pose with
      | none =>
        rw [processTick_skip_no_data env now nc st hA2 (Or.inl hp)]
        rfl
      | some g =>
        cases hs : env.last_scan with
        | none =>
          rw [processTick_skip_no_data env now nc st hA2 (Or.inr hs)]
          rfl
        | some ranges =>
          rcases hc : compute_relative_target env.lookupTransform g with ⟨o, fbs⟩
          cases o with
          | none =>
            rw [processTick_skip_no_target env now nc st g ranges fbs hA2 hp hs hc]
            rfl
          | some t =>
            cases hi : env.inference (preprocess env.laser_scan_stride env.n_laser_scans ranges
                ++ [t.1, t.2.1, t.2.2]) with
            | error e2 =>
              have h2 := h (preprocess env.laser_scan_stride env.n_laser_scans ranges
                ++ [t.1, t.2.1, t.2.2])
              rw [hi] at h2
              exact absurd h2 (by simp [exceptIsOk])
            | ok pair =>
              obtain ⟨lx, az⟩ := pair
              rw [processTick_publish env now nc st g ranges t fbs lx az hA2 hp hs hc hi]
              rfl
  · intro env now nc st e herr
    by_cases hA : st.isActive = false
    · rw [processTick_skip_inactive env now nc st hA] at herr
      exact absurd herr (by simp)
    · have hA2 : st.isActive = true := by revert hA; cases st.isActive <;> simp
      cases hp : env.target_pose with
      | none =>
        rw [processTick_skip_no_data env now nc st hA2 (Or.inl hp)] at herr
        exact absurd herr (by simp)
      | some g =>
        cases hs : env.last_scan with
        | none =>
          rw [processTick_skip_no_data env now nc st hA2 (Or.inr hs)] at herr
          exact absurd herr (by simp)
        | some ranges =>
          rcases hc : compute_relative_target env.lookupTransform g with ⟨o, fbs⟩
          cases o with
          | none =>
            rw [processTick_skip_no_target env now nc st g ranges fbs hA2 hp hs hc] at herr
            exact absurd herr (by simp)
          | some t =>
            cases hi : env.inference (preprocess env.laser_scan_stride env.n_laser_scans ranges
                ++ [t.1, t.2.1, t.2.2]) with
            | error e2 =>
              refine ⟨preprocess env.laser_scan_stride env.n_laser_scans ranges
                ++ [t.1, t.2.1, t.2.2], ?_⟩
              cases e
              cases e2
              exact hi
            | ok pair =>
              obtain ⟨lx, az⟩ := pair
              rw [processTick_publish env now nc st g ranges t fbs lx az hA2 hp hs hc hi] at herr
              exact absurd herr (by simp)

/-- C5 (witness): with an inference engine that never raises, the tick never
ends in an exception. -/
theorem tick_error_only_from_inference_witness :
    exceptIsOk (processTick env0 0 0 GoalState.idle) = true :=
  tick_error_only_from_inference.1 env0 0 0 GoalState.idle (fun _ => rfl)

/-- C6: on every tick, if no goal is active, or no goal/scan message has ever
arrived, the body is skipped with nothing published while the deadline is
still advanced by one period; if the relative-target computation returns
absence the body is likewise skipped (after the feedback stage); otherwise
exactly one command is published and `check_goal_reached` is invoked with the
same relative target that was appended to the inference input vector. -/
theorem tick_skip_and_publish (env : Env) (now nc : ℝ) (st : GoalState) :
    ((st.isActive = false ∨ env.target_pose = none ∨ env.last_scan = none) →
      processTick env now nc st =
        .ok ⟨nc + 1 / env.freq, (schedule_step env.freq nc now).missed,
             (schedule_step env.freq nc now).wake, [], [], none, st⟩) ∧
    (∀ (g : GoalPose) (ranges : List ℝ) (fbs : List Feedback),
      st.isActive = true → env.target_pose = some g → env.last_scan = some ranges →
      compute_relative_target env.lookupTransform g = (none, fbs) →
      processTick env now nc st =
        .ok ⟨nc + 1 / env.freq, (schedule_step env.freq nc now).missed,
             (schedule_step env.freq nc now).wake, [], fbs, none, st⟩) ∧
    (∀ (g : GoalPose) (ranges : List ℝ) (t : ℝ × ℝ × ℝ) (fbs : List Feedback) (lx az : ℝ),
      st.isActive = true → env.target_pose = some g → env.last_scan = some ranges →
      compute_relative_target env.lookupTransform g = (some t, fbs) →
      env.inference (preprocess env.laser_scan_stride env.n_laser_scans ranges
          ++ [t.1, t.2.1, t.2.2]) = .ok (lx, az) →
      processTick env now nc st =
        .ok ⟨nc + 1 / env.freq, (schedule_step env.freq nc now).missed,
             (schedule_step env.freq nc now).wake, [⟨lx, az⟩], fbs, some t,
             check_goal_reached t st⟩) := by
  refine ⟨?_, ?_, ?_⟩
  · intro hskip
    rw [← schedule_step_next_call env.freq nc now]
    by_cases hA : st.isActive = false
    · exact processTick_skip_inactive env now nc st hA
    · have hA2 : st.isActive = true := by revert hA; cases st.isActive <;> simp
      rcases hskip with h | h | h
      · rw [hA2] at h
        exact absurd h (by simp)
      · exact processTick_skip_no_data env now nc st hA2 (Or.inl h)
      · exact processTick_skip_no_data env now nc st hA2 (Or.inr h)
  · intro g ranges fbs hA hp hs hc
    rw [← schedule_step_next_call env.freq nc now]
    exact processTick_skip_no_target env now nc st g ranges fbs hA hp hs hc
  · intro g ranges t fbs lx az hA hp hs hc hi
    rw [← schedule_step_next_call env.freq nc now]
    exact processTick_publish env now nc st g ranges t fbs lx az hA hp hs hc hi

/-- C6 (witness): in a fully provisioned environment with a fixed mocked
inference, exactly one command is published and the goal check runs on the
computed relative target. -/
theorem tick_skip_and_publish_witness :
    processTick env1 0 0 GoalState.active =
      .ok ⟨0 + 1 / 25, (schedule_step 25 0 0).missed, (schedule_step 25 0 0).wake,
           [⟨1, 2⟩], [⟨0, 0, 0, idQuat⟩], some ((3 : ℝ), -4, 0),
           check_goal_reached ((3 : ℝ), -4, 0) GoalState.active⟩ :=
  (tick_skip_and_publish env1 0 0 GoalState.active).2.2 goal34 shortRanges
    ((3 : ℝ), -4, 0) [⟨0, 0, 0, idQuat⟩] 1 2 rfl rfl rfl compute_at_origin rfl

/-- C7: for every goal value, the relative-target computation returns absence
exactly when the transform lookup fails: each of the three lookup error kinds
(the `e` ranges over unknown frame, no connectivity, extrapolation) yields
`none` with no feedback — and no exception, since the function is total —
while a successful lookup always yields a present target. -/
theorem transform_failure_gives_none :
    (∀ (e : TransformError) (g : GoalPose),
        compute_relative_target (.error e) g = (none, [])) ∧
    (∀ (pr : (ℝ × ℝ × ℝ) × Quat) (g : GoalPose),
        (compute_relative_target (.ok pr) g).1.isSome = true) := by
  exact ⟨fun e g => rfl, fun pr g => rfl⟩

/-- C8: invoked with an `Active` goal, `check_goal_reached` transitions the
goal to `Succeeded` if and only if all three components of the relative
target are strictly within the tolerances (`0.1`, `0.1`); when the condition
fails, the goal state — whatever it is — is unchanged. -/
theorem check_goal_reached_iff (t : ℝ × ℝ × ℝ) (st : GoalState) :
    (check_goal_reached t GoalState.active = GoalState.succeeded ↔
      (|t.1| < position_tolerance ∧ |t.2.1| < position_tolerance ∧
        |t.2.2| < orientation_tolerance)) ∧
    (¬ (|t.1| < position_tolerance ∧ |t.2.1| < position_tolerance ∧
        |t.2.2| < orientation_tolerance) → check_goal_reached t st = st) := by
  constructor
  · unfold check_goal_reached
    split
    next hcond => simp [set_succeeded, hcond]
    next hcond => simp [hcond]
  · intro hcond
    unfold check_goal_reached
    rw [if_neg hcond]

/-- C8 (witness): the origin target is within tolerance and succeeds;
a target one metre ahead is out of tolerance and leaves the state alone. -/
theorem check_goal_reached_iff_witness :
    check_goal_reached ((0 : ℝ), 0, 0) GoalState.active = GoalState.succeeded ∧
    check_goal_reached ((1 : ℝ), 0, 0) GoalState.active = GoalState.active := by
  constructor
  · refine (check_goal_reached_iff ((0 : ℝ), 0, 0) GoalState.active).1.mpr ?_
    norm_num [position_tolerance, orientation_tolerance]
  · refine (check_goal_reached_iff ((1 : ℝ), 0, 0) GoalState.active).2 ?_
    intro hcond
    have h1 := hcond.1
    norm_num [position_tolerance] at h1

/-- C9: every iteration advances the deadline by exactly one period from its
previous value, so after `n` ticks the deadline is the initial time plus
`n` periods, whatever the wake times were; the missed-deadline error is
reported (non-fatally) exactly when the advanced deadline has been reached or
passed, in which case the body runs immediately, and otherwise the loop
sleeps until the deadline; apart from the missed flag and wake time the
iteration is unaffected, so a missed deadline never terminates the loop. -/
theorem scheduling_drift_free :
    (∀ (freq init : ℝ) (nows : ℕ → ℝ) (n : ℕ),
        loopSched freq init nows n = init + n * (1 / freq)) ∧
    (∀ freq nc now : ℝ, (schedule_step freq nc now).next_call = nc + 1 / freq) ∧
    (∀ freq nc now : ℝ, ((schedule_step freq nc now).missed = true ↔ nc + 1 / freq ≤ now)) ∧
    (∀ freq nc now : ℝ, (schedule_step freq nc now).missed = true →
        (schedule_step freq nc now).wake = now) ∧
    (∀ freq nc now : ℝ, (schedule_step freq nc now).missed = false →
        (schedule_step freq nc now).wake = nc + 1 / freq) ∧
    (∀ (env : Env) (now now2 nc : ℝ) (st : GoalState),
        Except.map (fun r => { r with missed := false, wake := 0 })
          (processTick env now nc st) =
        Except.map (fun r => { r with missed := false, wake := 0 })
          (processTick env now2 nc st)) := by
  refine ⟨?_, schedule_step_next_call, ?_, ?_, ?_, processTick_now_independent⟩
  · intro freq init nows n
    induction n with
    | zero => simp [loopSched]
    | succ k ih =>
      rw [loopSched, schedule_step_next_call, ih]
      push_cast
      ring
  · intro freq nc now
    rcases schedule_step_cases freq nc now with ⟨h, heq⟩ | ⟨h, heq⟩ <;> rw [heq]
    · exact iff_of_false (by simp) h
    · exact iff_of_true rfl h
  · intro freq nc now h
    rcases schedule_step_cases freq nc now with ⟨h2, heq⟩ | ⟨h2, heq⟩
    · rw [heq] at h
      exact absurd h (by simp)
    · rw [heq]
  · intro freq nc now h
    rcases schedule_step_cases freq nc now with ⟨h2, heq⟩ | ⟨h2, heq⟩
    · rw [heq]
    · rw [heq] at h
      exact absurd h (by simp)

/-- C9 (witness): with period `1`, deadline `1` and the clock already at `5`,
the missed-deadline error is reported and the body runs immediately. -/
theorem scheduling_drift_free_witness :
    (schedule_step 1 0 5).missed = true ∧ (schedule_step 1 0 5).wake = 5 := by
  have hm : (schedule_step (1 : ℝ) 0 5).missed = true :=
    (scheduling_drift_free.2.2.1 1 0 5).mpr (by norm_num)
  exact ⟨hm, scheduling_drift_free.2.2.2.1 1 0 5 hm⟩

/-- C10: the feedback record (the current pose snapshot) is emitted exactly
when the transform lookup succeeds; on lookup failure the computation returns
`none` with no feedback and without reading the goal pose — the result is the
same for every goal. -/
theorem feedback_iff_transform_success :
    (∀ (bp : ℝ × ℝ × ℝ) (bo : Quat) (g : GoalPose),
        (compute_relative_target (.ok (bp, bo)) g).2 = [⟨bp.1, bp.2.1, bp.2.2, bo⟩]) ∧
    (∀ (e : TransformError) (g g2 : GoalPose),
        compute_relative_target (.error e) g = (none, []) ∧
        compute_relative_target (.error e) g = compute_relative_target (.error e) g2) := by
  exact ⟨fun bp bo g => rfl, fun e g g2 => ⟨rfl, rfl⟩⟩

end DeepMotionPlanner
